import Mathlib

/-!
# pdp-mon: the report pipeline of `main.go`

A shallow embedding of `assessProofSetStatus`, `queryPDPService`,
`buildSingleProofSetReport` and `BuildProofSetReports`.

Modelling conventions.

* `*big.Int` values that the code dereferences (`chainHeight`, the deadline, the
  proof set identifier) are `Int`; a `*big.Int` field of a report is `Option Int`,
  where `none` is Go's `nil` pointer (the zero value of the field).
* `uint64` values are `Nat`, reduced `% 2^64` where the code can overflow.
* A Go `error` is a `GoError`: its message plus, for `%w`, the error it wraps.
  A nil error is `none : Option GoError`.
* Multi-value returns are tuples, so the value returned next to an error is visible.
* The generated bindings of package `contract` and the RPC client are not part of
  `main.go`; they are parameters (`PDPVerifier`, `PDPService`, `Client`) whose read
  calls answer `Except GoError _`.  Every call the code issues is recorded, in order,
  in a list of `Call` events returned next to the result.
-/

namespace PdpMon

/-! ## Data model -/

/-- Model of `common.Address` (20 bytes, read as a number); the zero value is `0`. -/
abbrev Address := Nat

/-- Go error values: `errors.New`-style strings (also what `fmt.Errorf` builds for
`%v`), and the wrapping error `fmt.Errorf` builds for `%w`. -/
inductive GoError where
  | errorString (s : String)
  | wrapError (msg : String) (err : GoError)
  deriving DecidableEq, Repr

/-- Method `Error()`: the message. -/
def GoError.Error : GoError → String
  | .errorString s => s
  | .wrapError msg _ => msg

/-- Method `Unwrap()`: the wrapped error, if any. -/
def GoError.Unwrap : GoError → Option GoError
  | .errorString _ => none
  | .wrapError _ err => some err

/-- `fmt.Errorf(text + "%w", err)`: the message is the text followed by the message of
`err`, and the result wraps `err`. -/
def errorfW (text : String) (err : GoError) : GoError :=
  .wrapError (text ++ err.Error) err

/-- `fmt.Errorf("error building report for proof set %d: %v", i, err)` with `i` a
`uint64`: decimal digits of `i`, then the message of `err`; nothing is wrapped. -/
def errorfBuildingReport (i : Nat) (err : GoError) : GoError :=
  .errorString ("error building report for proof set " ++ toString i ++ ": " ++ err.Error)

/-- The struct `ProofSetReport`. -/
structure ProofSetReport where
  ID : Option Int
  Owner1 : Address
  Owner2 : Address
  Listener : Address
  IsLive : Bool
  NextChallengeEpoch : Option Int
  LastProvenEpoch : Option Int
  ProvingDeadline : Option Int
  ProvenThisPeriod : Bool
  Status : String
  deriving DecidableEq, Repr

/-- The composite literal `ProofSetReport{}`: every field at its zero value. -/
def ProofSetReport.zero : ProofSetReport :=
  { ID := none, Owner1 := 0, Owner2 := 0, Listener := 0, IsLive := false,
    NextChallengeEpoch := none, LastProvenEpoch := none, ProvingDeadline := none,
    ProvenThisPeriod := false, Status := "" }

/-! ## Status classifier -/

/-- Method `(*big.Int).Cmp`: `-1`, `0` or `+1`. -/
def bigCmp (x y : Int) : Int :=
  if x < y then -1 else if x = y then 0 else 1

/-- Function `assessProofSetStatus` (main.go, lines 211-230). -/
def assessProofSetStatus (chainHeight : Int) (isLive : Bool) (provingDeadline : Int)
    (provenThisPeriod : Bool) : String :=
  if !isLive then
    "INACTIVE (Not Live)"
  else if provenThisPeriod then
    "GOOD (Proven This Period)"
  else if bigCmp chainHeight provingDeadline ≥ 0 then
    "BAD (Overdue / Missed Proof)"
  else
    "PENDING (Awaiting Proof)"

/-! ## The external collaborators -/

/-- One remote read or binding construction issued by the code, with its arguments.
`ProvingDeadlines` and `ProvenThisPeriod` carry the address of the service instance
they were sent to. -/
inductive Call where
  | NewPDPVerifier (addr : Address)
  | GetNextProofSetId
  | GetProofSetOwner (id : Int)
  | GetProofSetListener (id : Int)
  | ProofSetLive (id : Int)
  | GetNextChallengeEpoch (id : Int)
  | GetProofSetLastProvenEpoch (id : Int)
  | NewPDPService (addr : Address)
  | ProvingDeadlines (addr : Address) (id : Int)
  | ProvenThisPeriod (addr : Address) (id : Int)
  deriving DecidableEq, Repr

/-- The binding `contract.PDPVerifier` (the Registry), as the read calls `main.go` uses.
`GetNextProofSetId` answers a `uint64`. -/
structure PDPVerifier where
  GetNextProofSetId : Except GoError Nat
  GetProofSetOwner : Int → Except GoError (Address × Address)
  GetProofSetListener : Int → Except GoError Address
  ProofSetLive : Int → Except GoError Bool
  GetNextChallengeEpoch : Int → Except GoError Int
  GetProofSetLastProvenEpoch : Int → Except GoError Int

/-- The binding `contract.PDPService` (one Proving Service instance). -/
structure PDPService where
  ProvingDeadlines : Int → Except GoError Int
  ProvenThisPeriod : Int → Except GoError Bool

/-- The `ethclient.Client` together with the two binding constructors of package
`contract`: which Registry and which Proving Service instance an address reaches. -/
structure Client where
  NewPDPVerifier : Address → Except GoError PDPVerifier
  NewPDPService : Address → Except GoError PDPService

/-! ## Report builder -/

/-- Function `queryPDPService` (main.go, lines 178-208): the returned deadline
(`nil` on failure), the proven flag, the error, and the calls issued. -/
def queryPDPService (contractAddr : Address) (client : Client) (setID : Int) :
    (Option Int × Bool × Option GoError) × List Call :=
  match client.NewPDPService contractAddr with
  | .error err =>
    ((none, false, some (errorfW "failed to create PDPService instance: " err)),
      [.NewPDPService contractAddr])
  | .ok pdpService =>
    match pdpService.ProvingDeadlines setID with
    | .error err =>
      ((none, false, some (errorfW "failed to get proving deadline: " err)),
        [.NewPDPService contractAddr, .ProvingDeadlines contractAddr setID])
    | .ok deadline =>
      match pdpService.ProvenThisPeriod setID with
      | .error err =>
        ((none, false, some (errorfW "failed to check if proven this period: " err)),
          [.NewPDPService contractAddr, .ProvingDeadlines contractAddr setID,
            .ProvenThisPeriod contractAddr setID])
      | .ok proven =>
        ((some deadline, proven, none),
          [.NewPDPService contractAddr, .ProvingDeadlines contractAddr setID,
            .ProvenThisPeriod contractAddr setID])

/-- Function `buildSingleProofSetReport` (main.go, lines 112-174): the returned report,
the error, and the calls issued. -/
def buildSingleProofSetReport (pdpVerifier : PDPVerifier) (client : Client)
    (chainHeight : Int) (proofSetID : Int) :
    (ProofSetReport × Option GoError) × List Call :=
  match pdpVerifier.GetProofSetOwner proofSetID with
  | .error err =>
    ((ProofSetReport.zero, some (errorfW "failed to get proof set owner: " err)),
      [.GetProofSetOwner proofSetID])
  | .ok (owner1, owner2) =>
    match pdpVerifier.GetProofSetListener proofSetID with
    | .error err =>
      ((ProofSetReport.zero, some (errorfW "failed to get proof set listener: " err)),
        [.GetProofSetOwner proofSetID, .GetProofSetListener proofSetID])
    | .ok listener =>
      match pdpVerifier.ProofSetLive proofSetID with
      | .error err =>
        ((ProofSetReport.zero,
            some (errorfW "failed to check if proof set is live: " err)),
          [.GetProofSetOwner proofSetID, .GetProofSetListener proofSetID,
            .ProofSetLive proofSetID])
      | .ok isLive =>
        match pdpVerifier.GetNextChallengeEpoch proofSetID with
        | .error err =>
          ((ProofSetReport.zero, some (errorfW "failed to get next challenge epoch: " err)),
            [.GetProofSetOwner proofSetID, .GetProofSetListener proofSetID,
              .ProofSetLive proofSetID, .GetNextChallengeEpoch proofSetID])
        | .ok nextChallenge =>
          match pdpVerifier.GetProofSetLastProvenEpoch proofSetID with
          | .error err =>
            ((ProofSetReport.zero, some (errorfW "failed to get last proven epoch: " err)),
              [.GetProofSetOwner proofSetID, .GetProofSetListener proofSetID,
                .ProofSetLive proofSetID, .GetNextChallengeEpoch proofSetID,
                .GetProofSetLastProvenEpoch proofSetID])
          | .ok lastProven =>
            match queryPDPService listener client proofSetID with
            | ((_, _, some err), calls) =>
              ((ProofSetReport.zero, some (errorfW "failed to query PDP Service: " err)),
                [.GetProofSetOwner proofSetID, .GetProofSetListener proofSetID,
                  .ProofSetLive proofSetID, .GetNextChallengeEpoch proofSetID,
                  .GetProofSetLastProvenEpoch proofSetID] ++ calls)
            | ((none, _, none), calls) =>
              -- not reachable: `queryPDPService` returns a non-nil deadline whenever its
              -- error is nil (`queryPDPService_nil_deadline`)
              ((ProofSetReport.zero, some (.errorString "nil deadline with nil error")),
                [.GetProofSetOwner proofSetID, .GetProofSetListener proofSetID,
                  .ProofSetLive proofSetID, .GetNextChallengeEpoch proofSetID,
                  .GetProofSetLastProvenEpoch proofSetID] ++ calls)
            | ((some provingDeadline, provenThisPeriod, none), calls) =>
              let status :=
                assessProofSetStatus chainHeight isLive provingDeadline provenThisPeriod
              (({ ID := some proofSetID
                  Owner1 := owner1
                  Owner2 := owner2
                  Listener := listener
                  IsLive := isLive
                  NextChallengeEpoch := some nextChallenge
                  LastProvenEpoch := some lastProven
                  ProvingDeadline := some provingDeadline
                  ProvenThisPeriod := provenThisPeriod
                  Status := status }, none),
                [.GetProofSetOwner proofSetID, .GetProofSetListener proofSetID,
                  .ProofSetLive proofSetID, .GetNextChallengeEpoch proofSetID,
                  .GetProofSetLastProvenEpoch proofSetID] ++ calls)

/-! ## Enumerator -/

/-- Conversion `int64(i)` of a `uint64`: the two's complement reading of the 64 bits. -/
def int64OfUint64 (i : Nat) : Int :=
  if i % 2 ^ 64 < 2 ^ 63 then ((i % 2 ^ 64 : Nat) : Int)
  else ((i % 2 ^ 64 : Nat) : Int) - 2 ^ 64

/-- `big.NewInt(x)`: the integer `x`. -/
def bigNewInt (x : Int) : Int := x

/-- The `for` loop of `BuildProofSetReports` (main.go, lines 96-106), from the state
`i`, `reports` with the calls `tr` issued so far.  `fuel` bounds the number of
iterations; `none` means the bound was reached with the loop condition still true. -/
def buildLoop (pdpVerifier : PDPVerifier) (client : Client) (chainHeight : Int)
    (nextProofSetID : Nat) :
    Nat → Nat → List ProofSetReport → List Call →
      Option ((List ProofSetReport × Option GoError) × List Call)
  | fuel, i, reports, tr =>
    if i < nextProofSetID then
      match fuel with
      | 0 => none
      | fuel + 1 =>
        let id := bigNewInt (int64OfUint64 i)
        match buildSingleProofSetReport pdpVerifier client chainHeight id with
        | ((_, some err), calls) =>
          some (([], some (errorfBuildingReport i err)), tr ++ calls)
        | ((report, none), calls) =>
          buildLoop pdpVerifier client chainHeight nextProofSetID fuel
            ((i + 1) % 2 ^ 64) (reports ++ [report]) (tr ++ calls)
    else
      some ((reports, none), tr)

/-- Function `BuildProofSetReports` (main.go, lines 74-109): the returned reports (`[]`
is the nil slice), the error, and the calls issued.  The loop is given as many
iterations as the count the Registry answered. -/
def BuildProofSetReports (contractAddr : Address) (client : Client) (chainHeight : Int) :
    Option ((List ProofSetReport × Option GoError) × List Call) :=
  match client.NewPDPVerifier contractAddr with
  | .error err =>
    some (([], some (errorfW "failed to create PDPVerifier instance: " err)),
      [.NewPDPVerifier contractAddr])
  | .ok pdpVerifier =>
    match pdpVerifier.GetNextProofSetId with
    | .error err =>
      some (([], some (errorfW "failed to get next proof set ID: " err)),
        [.NewPDPVerifier contractAddr, .GetNextProofSetId])
    | .ok nextProofSetID =>
      buildLoop pdpVerifier client chainHeight nextProofSetID nextProofSetID 0 []
        [.NewPDPVerifier contractAddr, .GetNextProofSetId]

/-! ## The steps of the report builder and their errors -/

/-- The context texts `buildSingleProofSetReport` puts in front of a failing step. -/
def reportContexts : List String :=
  ["failed to get proof set owner: ", "failed to get proof set listener: ",
   "failed to check if proof set is live: ", "failed to get next challenge epoch: ",
   "failed to get last proven epoch: ", "failed to query PDP Service: "]

/-- The query steps of `buildSingleProofSetReport`, in the order the code runs them. -/
inductive Step where
  | owners | listener | isLive | nextChallengeEpoch | lastProvenEpoch
  | provingDeadline | provenThisPeriod
  deriving DecidableEq, Repr

/-- The context text the code puts in front of the error of each step. -/
def Step.context : Step → String
  | .owners => "failed to get proof set owner: "
  | .listener => "failed to get proof set listener: "
  | .isLive => "failed to check if proof set is live: "
  | .nextChallengeEpoch => "failed to get next challenge epoch: "
  | .lastProvenEpoch => "failed to get last proven epoch: "
  | .provingDeadline => "failed to get proving deadline: "
  | .provenThisPeriod => "failed to check if proven this period: "

/-- The error `buildSingleProofSetReport` returns when the given step fails with `e`:
the two Proving Service steps are wrapped once more by the caller of
`queryPDPService`. -/
def Step.error (s : Step) (e : GoError) : GoError :=
  match s with
  | .provingDeadline | .provenThisPeriod =>
    errorfW "failed to query PDP Service: " (errorfW s.context e)
  | _ => errorfW s.context e

/-- The text `buildSingleProofSetReport` puts in front of an error coming out of
`queryPDPService`; the Registry steps have none. -/
def Step.outer : Step → String
  | .provingDeadline | .provenThisPeriod => "failed to query PDP Service: "
  | _ => ""

/-- The reads of the steps before the Proving Service succeed, with listener `l`. -/
def RegistryReadsOk (v : PDPVerifier) (id : Int) (l : Address) : Prop :=
  (∃ o, v.GetProofSetOwner id = .ok o) ∧ v.GetProofSetListener id = .ok l
  ∧ (∃ b, v.ProofSetLive id = .ok b) ∧ (∃ n, v.GetNextChallengeEpoch id = .ok n)
  ∧ (∃ n, v.GetProofSetLastProvenEpoch id = .ok n)

/-- Step `s` fails with `e` and every step the code runs before it succeeds. -/
def FirstFailure (v : PDPVerifier) (c : Client) (id : Int) (e : GoError) : Step → Prop
  | .owners => v.GetProofSetOwner id = .error e
  | .listener => (∃ o, v.GetProofSetOwner id = .ok o) ∧ v.GetProofSetListener id = .error e
  | .isLive =>
    (∃ o, v.GetProofSetOwner id = .ok o) ∧ (∃ l, v.GetProofSetListener id = .ok l)
    ∧ v.ProofSetLive id = .error e
  | .nextChallengeEpoch =>
    (∃ o, v.GetProofSetOwner id = .ok o) ∧ (∃ l, v.GetProofSetListener id = .ok l)
    ∧ (∃ b, v.ProofSetLive id = .ok b) ∧ v.GetNextChallengeEpoch id = .error e
  | .lastProvenEpoch =>
    (∃ o, v.GetProofSetOwner id = .ok o) ∧ (∃ l, v.GetProofSetListener id = .ok l)
    ∧ (∃ b, v.ProofSetLive id = .ok b) ∧ (∃ n, v.GetNextChallengeEpoch id = .ok n)
    ∧ v.GetProofSetLastProvenEpoch id = .error e
  | .provingDeadline =>
    ∃ l svc, RegistryReadsOk v id l ∧ c.NewPDPService l = .ok svc
      ∧ svc.ProvingDeadlines id = .error e
  | .provenThisPeriod =>
    ∃ l svc, RegistryReadsOk v id l ∧ c.NewPDPService l = .ok svc
      ∧ (∃ d, svc.ProvingDeadlines id = .ok d) ∧ svc.ProvenThisPeriod id = .error e

/-! ## Sample collaborators used to evaluate the code on concrete inputs -/

/-- A Proving Service instance answering deadline `1000`, not proven. -/
def sampleService : PDPService :=
  { ProvingDeadlines := fun _ => .ok 1000
    ProvenThisPeriod := fun _ => .ok false }

/-- A Registry with `n` proof sets in which every read succeeds. -/
def sampleVerifier (n : Nat) : PDPVerifier :=
  { GetNextProofSetId := .ok n
    GetProofSetOwner := fun _ => .ok (11, 12)
    GetProofSetListener := fun _ => .ok 77
    ProofSetLive := fun _ => .ok true
    GetNextChallengeEpoch := fun _ => .ok 900
    GetProofSetLastProvenEpoch := fun _ => .ok 800 }

/-- A client reaching `sampleVerifier n` and `sampleService` at every address. -/
def sampleClient (n : Nat) : Client :=
  { NewPDPVerifier := fun _ => .ok (sampleVerifier n)
    NewPDPService := fun _ => .ok sampleService }

/-- A client reaching a Registry with three proof sets and a Proving Service instance
whose deadline read fails for identifier `1`. -/
def deadlineFailsAtOneClient : Client :=
  { NewPDPVerifier := fun _ => .ok (sampleVerifier 3)
    NewPDPService := fun _ => .ok
      { ProvingDeadlines := fun id =>
          if id = 1 then .error (.errorString "execution reverted") else .ok 1000
        ProvenThisPeriod := fun _ => .ok false } }

/-- A client whose Registry fails the count query. -/
def countFailingClient : Client :=
  { NewPDPVerifier := fun _ => .ok
      { sampleVerifier 0 with GetNextProofSetId := .error (.errorString "connection refused") }
    NewPDPService := fun _ => .ok sampleService }

/-- A Proving Service instance whose deadline read fails. -/
def deadlineFailingClient : Client :=
  { NewPDPVerifier := fun _ => .ok (sampleVerifier 1)
    NewPDPService := fun _ => .ok
      { ProvingDeadlines := fun _ => .error (.errorString "execution reverted")
        ProvenThisPeriod := fun _ => .ok true } }

/-! ## Auxiliary facts about the report builder and the loop -/

/-- `queryPDPService` never returns a nil deadline together with a nil error. -/
theorem queryPDPService_nil_deadline (addr : Address) (client : Client) (setID : Int)
    (proven : Bool) (calls : List Call) :
    queryPDPService addr client setID ≠ ((none, proven, none), calls) := by
  unfold queryPDPService
  split
  · simp
  · split
    · simp
    · split <;> simp

/-- A successful `buildSingleProofSetReport` stores the identifier it was given, a
non-nil deadline, and the status computed from the stored fields. -/
theorem buildSingle_ok_fields (v : PDPVerifier) (c : Client) (H id : Int)
    (hok : (buildSingleProofSetReport v c H id).1.2 = none) :
    (buildSingleProofSetReport v c H id).1.1.ID = some id
    ∧ ∃ d, (buildSingleProofSetReport v c H id).1.1.ProvingDeadline = some d
      ∧ (buildSingleProofSetReport v c H id).1.1.Status
        = assessProofSetStatus H (buildSingleProofSetReport v c H id).1.1.IsLive d
            (buildSingleProofSetReport v c H id).1.1.ProvenThisPeriod := by
  unfold buildSingleProofSetReport at hok ⊢
  split at hok
  · simp at hok
  · split at hok
    · simp at hok
    · split at hok
      · simp at hok
      · split at hok
        · simp at hok
        · split at hok
          · simp at hok
          · split at hok
            · simp at hok
            · simp at hok
            · simp_all

/-- A failing `buildSingleProofSetReport` returns the zero report, and its error is a
wrapping error whose message starts with one of the context texts. -/
theorem buildSingle_err_shape (v : PDPVerifier) (c : Client) (H id : Int) (e : GoError)
    (herr : (buildSingleProofSetReport v c H id).1.2 = some e) :
    (buildSingleProofSetReport v c H id).1.1 = ProofSetReport.zero
    ∧ ∃ text inner, text ∈ reportContexts ∧ e = errorfW text inner := by
  rcases h1 : v.GetProofSetOwner id with e1 | ⟨o1, o2⟩
  · simp [buildSingleProofSetReport, h1] at herr ⊢
    refine ⟨_, ?_, _, herr.symm⟩
    simp [reportContexts]
  rcases h2 : v.GetProofSetListener id with e2 | l
  · simp [buildSingleProofSetReport, h1, h2] at herr ⊢
    refine ⟨_, ?_, _, herr.symm⟩
    simp [reportContexts]
  rcases h3 : v.ProofSetLive id with e3 | live
  · simp [buildSingleProofSetReport, h1, h2, h3] at herr ⊢
    refine ⟨_, ?_, _, herr.symm⟩
    simp [reportContexts]
  rcases h4 : v.GetNextChallengeEpoch id with e4 | nc
  · simp [buildSingleProofSetReport, h1, h2, h3, h4] at herr ⊢
    refine ⟨_, ?_, _, herr.symm⟩
    simp [reportContexts]
  rcases h5 : v.GetProofSetLastProvenEpoch id with e5 | lp
  · simp [buildSingleProofSetReport, h1, h2, h3, h4, h5] at herr ⊢
    refine ⟨_, ?_, _, herr.symm⟩
    simp [reportContexts]
  rcases h6 : queryPDPService l c id with ⟨⟨dl, p, err⟩, calls⟩
  cases err with
  | some e6 =>
    simp [buildSingleProofSetReport, h1, h2, h3, h4, h5, h6] at herr ⊢
    refine ⟨_, ?_, _, herr.symm⟩
    simp [reportContexts]
  | none =>
    cases dl with
    | none => exact absurd h6 (queryPDPService_nil_deadline _ _ _ _ _)
    | some d => simp [buildSingleProofSetReport, h1, h2, h3, h4, h5, h6] at herr

/-- If step `s` is the first to fail, with error `e`, `buildSingleProofSetReport` returns
the zero report and the error `s.error e`. -/
theorem buildSingle_first_failure_eq (v : PDPVerifier) (c : Client) (H id : Int)
    (s : Step) (e : GoError) (hfail : FirstFailure v c id e s) :
    (buildSingleProofSetReport v c H id).1 = (ProofSetReport.zero, some (s.error e)) := by
  cases s with
  | owners =>
    simp only [FirstFailure] at hfail
    simp only [buildSingleProofSetReport, hfail, Step.error, Step.context]
  | listener =>
    obtain ⟨⟨⟨o1, o2⟩, h1⟩, h2⟩ := hfail
    simp only [buildSingleProofSetReport, h1, h2, Step.error, Step.context]
  | isLive =>
    obtain ⟨⟨⟨o1, o2⟩, h1⟩, ⟨l, h2⟩, h3⟩ := hfail
    simp only [buildSingleProofSetReport, h1, h2, h3, Step.error, Step.context]
  | nextChallengeEpoch =>
    obtain ⟨⟨⟨o1, o2⟩, h1⟩, ⟨l, h2⟩, ⟨b, h3⟩, h4⟩ := hfail
    simp only [buildSingleProofSetReport, h1, h2, h3, h4, Step.error, Step.context]
  | lastProvenEpoch =>
    obtain ⟨⟨⟨o1, o2⟩, h1⟩, ⟨l, h2⟩, ⟨b, h3⟩, ⟨n, h4⟩, h5⟩ := hfail
    simp only [buildSingleProofSetReport, h1, h2, h3, h4, h5, Step.error, Step.context]
  | provingDeadline =>
    obtain ⟨l, svc, ⟨⟨⟨o1, o2⟩, h1⟩, h2, ⟨b, h3⟩, ⟨n, h4⟩, ⟨m, h5⟩⟩, h6, h7⟩ := hfail
    have hq : queryPDPService l c id =
        ((none, false, some (errorfW "failed to get proving deadline: " e)),
          [.NewPDPService l, .ProvingDeadlines l id]) := by
      simp only [queryPDPService, h6, h7]
    simp only [buildSingleProofSetReport, h1, h2, h3, h4, h5, hq, Step.error, Step.context]
  | provenThisPeriod =>
    obtain ⟨l, svc, ⟨⟨⟨o1, o2⟩, h1⟩, h2, ⟨b, h3⟩, ⟨n, h4⟩, ⟨m, h5⟩⟩, h6, ⟨d, h7⟩, h8⟩ :=
      hfail
    have hq : queryPDPService l c id =
        ((none, false, some (errorfW "failed to check if proven this period: " e)),
          [.NewPDPService l, .ProvingDeadlines l id, .ProvenThisPeriod l id]) := by
      simp only [queryPDPService, h6, h7, h8]
    simp only [buildSingleProofSetReport, h1, h2, h3, h4, h5, hq, Step.error, Step.context]

/-- The message of `s.error e`: the outer text, the context text of `s`, the message of
`e`. -/
theorem Step.error_message (s : Step) (e : GoError) :
    (s.error e).Error = s.outer ++ s.context ++ e.Error := by
  cases s
  case provingDeadline => exact (String.append_assoc _ _ _).symm
  case provenThisPeriod => exact (String.append_assoc _ _ _).symm
  all_goals simp [Step.error, Step.outer, errorfW, GoError.Error]

/-- Below `2^63` the conversion `int64(i)` keeps the value. -/
theorem int64OfUint64_of_lt (i : Nat) (h : i < 2 ^ 63) : int64OfUint64 i = (i : Int) := by
  have hmod : i % 2 ^ 64 = i := Nat.mod_eq_of_lt (by
    have : (2 : Nat) ^ 63 < 2 ^ 64 := by norm_num
    omega)
  unfold int64OfUint64
  rw [hmod, if_pos h]

/-- From `2^63` up to `2^64 - 1` the conversion `int64(i)` yields `i - 2^64`. -/
theorem int64OfUint64_of_ge (i : Nat) (h : 2 ^ 63 ≤ i) (h2 : i < 2 ^ 64) :
    int64OfUint64 i = (i : Int) - 2 ^ 64 := by
  have hmod : i % 2 ^ 64 = i := Nat.mod_eq_of_lt h2
  unfold int64OfUint64
  rw [hmod, if_neg (by omega)]

/-- One iteration of the loop: with the condition true and fuel left, the loop calls
`buildSingleProofSetReport` on `big.NewInt(int64(i))`, then either returns the error
or continues from `i + 1` with the report appended. -/
theorem buildLoop_step (v : PDPVerifier) (c : Client) (H : Int) (N fuel i : Nat)
    (reports : List ProofSetReport) (tr : List Call) (hi : i < N) :
    buildLoop v c H N (fuel + 1) i reports tr =
      match buildSingleProofSetReport v c H (bigNewInt (int64OfUint64 i)) with
      | ((_, some err), calls) => some (([], some (errorfBuildingReport i err)), tr ++ calls)
      | ((report, none), calls) =>
        buildLoop v c H N fuel ((i + 1) % 2 ^ 64) (reports ++ [report]) (tr ++ calls) := by
  rw [buildLoop]
  simp only [hi, if_true]

/-- The loop ends when the condition is false. -/
theorem buildLoop_done (v : PDPVerifier) (c : Client) (H : Int) (N fuel i : Nat)
    (reports : List ProofSetReport) (tr : List Call) (hi : ¬ i < N) :
    buildLoop v c H N fuel i reports tr = some ((reports, none), tr) := by
  unfold buildLoop
  simp only [hi, if_false]

/-- If every identifier from `i` up to the count builds, the loop returns the reports
accumulated so far followed by the reports of `i, i+1, ..., N-1`, and no error. -/
theorem buildLoop_all_ok (v : PDPVerifier) (c : Client) (H : Int) (N : Nat)
    (hN : N < 2 ^ 64) :
    ∀ (fuel i : Nat) (reports : List ProofSetReport) (tr : List Call),
      N - i ≤ fuel →
      (∀ j, i ≤ j → j < N →
        (buildSingleProofSetReport v c H (bigNewInt (int64OfUint64 j))).1.2 = none) →
      (buildLoop v c H N fuel i reports tr).map Prod.fst =
        some (reports ++ (List.range' i (N - i)).map (fun j =>
          (buildSingleProofSetReport v c H (bigNewInt (int64OfUint64 j))).1.1), none) := by
  intro fuel
  induction fuel with
  | zero =>
    intro i reports tr hf _
    have hi : ¬ i < N := by omega
    have h0 : N - i = 0 := by omega
    rw [buildLoop_done v c H N 0 i reports tr hi, h0]
    simp
  | succ fuel ih =>
    intro i reports tr hf hall
    by_cases hi : i < N
    · rw [buildLoop_step v c H N fuel i reports tr hi]
      have hok := hall i (le_refl i) hi
      rcases hb : buildSingleProofSetReport v c H (bigNewInt (int64OfUint64 i)) with
        ⟨⟨report, err⟩, calls⟩
      rw [hb] at hok
      simp only at hok
      subst hok
      simp only
      have hmod : (i + 1) % 2 ^ 64 = i + 1 := Nat.mod_eq_of_lt (by omega)
      rw [hmod, ih (i + 1) (reports ++ [report]) (tr ++ calls) (by omega)
        (fun j hj hjN => hall j (by omega) hjN)]
      have hlen : N - i = (N - (i + 1)) + 1 := by omega
      rw [hlen, List.range'_succ, List.map_cons, hb]
      simp
    · have h0 : N - i = 0 := by omega
      rw [buildLoop_done v c H N (fuel + 1) i reports tr hi, h0]
      simp

/-- If identifiers `i, ..., k-1` build and `k` fails with `e`, the loop returns no
reports and the error naming `k` with the message of `e`. -/
theorem buildLoop_first_failure (v : PDPVerifier) (c : Client) (H : Int) (N k : Nat)
    (hN : N < 2 ^ 64) (hk : k < N) (e : GoError)
    (hfail : (buildSingleProofSetReport v c H (bigNewInt (int64OfUint64 k))).1.2 = some e) :
    ∀ (fuel i : Nat) (reports : List ProofSetReport) (tr : List Call),
      i ≤ k → N - i ≤ fuel →
      (∀ j, i ≤ j → j < k →
        (buildSingleProofSetReport v c H (bigNewInt (int64OfUint64 j))).1.2 = none) →
      (buildLoop v c H N fuel i reports tr).map Prod.fst =
        some ([], some (errorfBuildingReport k e)) := by
  intro fuel
  induction fuel with
  | zero =>
    intro i reports tr hik hf _
    omega
  | succ fuel ih =>
    intro i reports tr hik hf hall
    have hi : i < N := by omega
    rw [buildLoop_step v c H N fuel i reports tr hi]
    by_cases hik2 : i = k
    · subst hik2
      rcases hb : buildSingleProofSetReport v c H (bigNewInt (int64OfUint64 i)) with
        ⟨⟨report, err⟩, calls⟩
      rw [hb] at hfail
      simp only at hfail
      subst hfail
      simp
    · have hok := hall i (le_refl i) (by omega)
      rcases hb : buildSingleProofSetReport v c H (bigNewInt (int64OfUint64 i)) with
        ⟨⟨report, err⟩, calls⟩
      rw [hb] at hok
      simp only at hok
      subst hok
      simp only
      have hmod : (i + 1) % 2 ^ 64 = i + 1 := Nat.mod_eq_of_lt (by omega)
      rw [hmod]
      exact ih (i + 1) (reports ++ [report]) (tr ++ calls) (by omega) (by omega)
        (fun j hj hjk => hall j (by omega) hjk)

/-- Preservation along the loop: if the loop ends without error, every returned report
is one accumulated before or one built by a successful `buildSingleProofSetReport`
for the loop's chain height. -/
theorem buildLoop_mem (v : PDPVerifier) (c : Client) (H : Int) (N : Nat) :
    ∀ (fuel i : Nat) (reports out : List ProofSetReport) (tr tr2 : List Call),
      buildLoop v c H N fuel i reports tr = some ((out, none), tr2) →
      ∀ r ∈ out, r ∈ reports ∨ ∃ id,
        (buildSingleProofSetReport v c H id).1.2 = none
        ∧ r = (buildSingleProofSetReport v c H id).1.1 := by
  intro fuel
  induction fuel with
  | zero =>
    intro i reports out tr tr2 h r hr
    by_cases hi : i < N
    · rw [buildLoop] at h
      simp [hi] at h
    · rw [buildLoop_done v c H N 0 i reports tr hi] at h
      simp at h
      rw [← h.1] at hr
      exact Or.inl hr
  | succ fuel ih =>
    intro i reports out tr tr2 h r hr
    by_cases hi : i < N
    · rw [buildLoop_step v c H N fuel i reports tr hi] at h
      rcases hb : buildSingleProofSetReport v c H (bigNewInt (int64OfUint64 i)) with
        ⟨⟨report, err⟩, calls⟩
      rw [hb] at h
      cases err with
      | some e => simp at h
      | none =>
        simp only at h
        rcases ih _ _ _ _ _ h r hr with hmem | hex
        · rcases List.mem_append.mp hmem with h1 | h1
          · exact Or.inl h1
          · right
            refine ⟨bigNewInt (int64OfUint64 i), ?_, ?_⟩
            · rw [hb]
            · rw [hb]
              simpa using h1
        · exact Or.inr hex
    · rw [buildLoop_done v c H N (fuel + 1) i reports tr hi] at h
      simp at h
      rw [← h.1] at hr
      exact Or.inl hr

/-! ## Theorems: status classifier -/

/-- C1: for a live set not proven this period the status is BAD exactly when the chain
height has reached the deadline (`d ≤ h`), and PENDING exactly when it has not; at
`h = d` it is BAD; with `d = 1000`: PENDING at 999, BAD at 1000 and at 1001. -/
theorem assessProofSetStatus_live_unproven (h d : Int) :
    (assessProofSetStatus h true d false = "BAD (Overdue / Missed Proof)" ↔ d ≤ h)
    ∧ (assessProofSetStatus h true d false = "PENDING (Awaiting Proof)" ↔ h < d)
    ∧ assessProofSetStatus d true d false = "BAD (Overdue / Missed Proof)"
    ∧ assessProofSetStatus 999 true 1000 false = "PENDING (Awaiting Proof)"
    ∧ assessProofSetStatus 1000 true 1000 false = "BAD (Overdue / Missed Proof)"
    ∧ assessProofSetStatus 1001 true 1000 false = "BAD (Overdue / Missed Proof)" := by
  have hne : ("BAD (Overdue / Missed Proof)" : String) ≠ "PENDING (Awaiting Proof)" := by
    decide
  have key : ∀ x y : Int, assessProofSetStatus x true y false =
      if y ≤ x then "BAD (Overdue / Missed Proof)" else "PENDING (Awaiting Proof)" := by
    intro x y
    unfold assessProofSetStatus bigCmp
    by_cases h1 : x < y
    · have h2 : ¬ y ≤ x := not_le.mpr h1
      simp [h1, h2]
    · have h2 : y ≤ x := not_lt.mp h1
      by_cases h3 : x = y
      · simp [h3]
      · simp [h1, h2, h3]
  refine ⟨?_, ?_, ?_, ?_, ?_, ?_⟩
  · rw [key]
    by_cases hle : d ≤ h
    · simp [hle]
    · simp [hle, hne.symm]
  · rw [key]
    by_cases hle : d ≤ h
    · simp [hle, hne, not_lt.mpr hle]
    · simp [hle, not_le.mp hle]
  · rw [key]; simp
  · rw [key]; simp
  · rw [key]; simp
  · rw [key]; simp

/-- C2: a proof set that is not live is INACTIVE for every height, deadline and
proven flag; in particular for proven, deadline 500, height 9999. -/
theorem assessProofSetStatus_not_live (h d : Int) (provenThisPeriod : Bool) :
    assessProofSetStatus h false d provenThisPeriod = "INACTIVE (Not Live)"
    ∧ assessProofSetStatus 9999 false 500 true = "INACTIVE (Not Live)" := by
  constructor <;> simp [assessProofSetStatus]

/-- C3: a live proof set proven this period is GOOD whatever the height and deadline. -/
theorem assessProofSetStatus_proven (h d : Int) :
    assessProofSetStatus h true d true = "GOOD (Proven This Period)" := by
  simp [assessProofSetStatus]

/-! ## Theorems: enumerator -/

/-- With a count `N < 2^64` and every identifier building, `BuildProofSetReports` returns
no error and the `N` reports of loop indices `0, 1, ..., N-1`, in that order, each
built for the identifier `big.NewInt(int64(i))`. -/
theorem BuildProofSetReports_all_ok (addr : Address) (client : Client) (H : Int)
    (v : PDPVerifier) (N : Nat)
    (hv : client.NewPDPVerifier addr = .ok v) (hn : v.GetNextProofSetId = .ok N)
    (hN : N < 2 ^ 64)
    (hall : ∀ j, j < N →
      (buildSingleProofSetReport v client H (bigNewInt (int64OfUint64 j))).1.2 = none) :
    (BuildProofSetReports addr client H).map Prod.fst =
      some ((List.range N).map (fun j =>
        (buildSingleProofSetReport v client H (bigNewInt (int64OfUint64 j))).1.1), none) := by
  unfold BuildProofSetReports
  simp only [hv, hn]
  rw [buildLoop_all_ok v client H N hN N 0 [] _ (by omega) (fun j _ hj => hall j hj)]
  simp [List.range_eq_range']

/-- Every read of the sample collaborators succeeds, for every identifier. -/
theorem sampleClient_builds (n : Nat) (H id : Int) :
    buildSingleProofSetReport (sampleVerifier n) (sampleClient n) H id =
      (({ ID := some id, Owner1 := 11, Owner2 := 12, Listener := 77, IsLive := true,
          NextChallengeEpoch := some 900, LastProvenEpoch := some 800,
          ProvingDeadline := some 1000, ProvenThisPeriod := false,
          Status := assessProofSetStatus H true 1000 false }, none),
        [.GetProofSetOwner id, .GetProofSetListener id, .ProofSetLive id,
          .GetNextChallengeEpoch id, .GetProofSetLastProvenEpoch id,
          .NewPDPService 77, .ProvingDeadlines 77 id, .ProvenThisPeriod 77 id]) := by
  rfl

/-- C4 (counterexample): with the count `2^63 + 1` and every read succeeding for every
identifier, the run does not return `2^63 + 1` reports whose element at index `i` has
ID `i`: the identifier the loop builds at index `2^63` is `int64(2^63) = -2^63`.  (A Go
slice cannot hold that many reports either, its length being an `int`.) -/
theorem BuildProofSetReports_ids_counterexample :
    (∀ j, j < 2 ^ 63 + 1 →
      (buildSingleProofSetReport (sampleVerifier (2 ^ 63 + 1)) (sampleClient (2 ^ 63 + 1))
        1000 (bigNewInt (int64OfUint64 j))).1.2 = none)
    ∧ ¬ ∃ reports : List ProofSetReport,
        (BuildProofSetReports 0 (sampleClient (2 ^ 63 + 1)) 1000).map Prod.fst
          = some (reports, none)
        ∧ reports.length = 2 ^ 63 + 1
        ∧ ∀ i : Nat, i < 2 ^ 63 + 1 →
            (reports[i]?).map (fun r => r.ID) = some (some (i : Int)) := by
  have hall : ∀ j, j < 2 ^ 63 + 1 →
      (buildSingleProofSetReport (sampleVerifier (2 ^ 63 + 1)) (sampleClient (2 ^ 63 + 1))
        1000 (bigNewInt (int64OfUint64 j))).1.2 = none :=
    fun j _ => by rw [sampleClient_builds]
  refine ⟨hall, ?_⟩
  rintro ⟨reports, hres, _, hids⟩
  have hrun := BuildProofSetReports_all_ok 0 (sampleClient (2 ^ 63 + 1)) 1000
    (sampleVerifier (2 ^ 63 + 1)) (2 ^ 63 + 1) rfl rfl (by norm_num) hall
  rw [hrun] at hres
  have hrep := (Prod.mk.inj (Option.some.inj hres)).1
  have hid := hids (2 ^ 63) (by norm_num)
  rw [← hrep, List.getElem?_map, List.getElem?_range (by norm_num), Option.map_some',
    Option.map_some', sampleClient_builds] at hid
  have hval : bigNewInt (int64OfUint64 (2 ^ 63)) = ((2 ^ 63 : Nat) : Int) - 2 ^ 64 := by
    rw [bigNewInt, int64OfUint64_of_ge (2 ^ 63) (le_refl _) (by norm_num)]
  have hid2 := Option.some.inj (Option.some.inj hid)
  rw [hval] at hid2
  norm_num at hid2

/-- C4 (amended): with a count `N ≤ 2^63` and every identifier building,
`BuildProofSetReports` returns no error and exactly `N` reports, the report at index `i`
carrying the identifier `i`, so the identifiers are `0, ..., N-1` in ascending order;
for `N = 0` the result is the empty sequence. -/
theorem BuildProofSetReports_ids (addr : Address) (client : Client) (H : Int)
    (v : PDPVerifier) (N : Nat)
    (hv : client.NewPDPVerifier addr = .ok v) (hn : v.GetNextProofSetId = .ok N)
    (hN : N ≤ 2 ^ 63)
    (hall : ∀ j, j < N →
      (buildSingleProofSetReport v client H (bigNewInt (int64OfUint64 j))).1.2 = none) :
    ∃ reports, (BuildProofSetReports addr client H).map Prod.fst = some (reports, none)
      ∧ reports.length = N
      ∧ (∀ i, i < N → (reports[i]?).map (fun r => r.ID) = some (some (i : Int)))
      ∧ (N = 0 → reports = []) := by
  have hrun := BuildProofSetReports_all_ok addr client H v N hv hn
    (by have : (2 : Nat) ^ 63 < 2 ^ 64 := by norm_num
        omega) hall
  refine ⟨_, hrun, by simp, ?_, ?_⟩
  · intro i hi
    rw [List.getElem?_map, List.getElem?_range hi, Option.map_some', Option.map_some',
      (buildSingle_ok_fields v client H _ (hall i hi)).1]
    rw [bigNewInt, int64OfUint64_of_lt i (by omega)]
  · intro h0
    subst h0
    simp

/-- Witness for C4 (amended): two proof sets, every read succeeds. -/
theorem BuildProofSetReports_ids_witness :
    ∃ reports, (BuildProofSetReports 0 (sampleClient 2) 1000).map Prod.fst
        = some (reports, none)
      ∧ reports.length = 2
      ∧ (∀ i : Nat, i < 2 → (reports[i]?).map (fun r => r.ID) = some (some (i : Int)))
      ∧ (2 = 0 → reports = []) :=
  BuildProofSetReports_ids 0 (sampleClient 2) 1000 (sampleVerifier 2) 2 rfl rfl
    (by norm_num) (fun j _ => by rw [sampleClient_builds])

/-- If the count is `N`, identifiers below `k < N` build and `k` fails with `e`, then
`BuildProofSetReports` returns no reports and an error whose message is
"error building report for proof set k: " followed by the message of `e`. -/
theorem BuildProofSetReports_failure (addr : Address) (client : Client) (H : Int)
    (v : PDPVerifier) (N k : Nat) (e : GoError)
    (hv : client.NewPDPVerifier addr = .ok v) (hn : v.GetNextProofSetId = .ok N)
    (hN : N < 2 ^ 64) (hk : k < N)
    (hprev : ∀ j, j < k →
      (buildSingleProofSetReport v client H (bigNewInt (int64OfUint64 j))).1.2 = none)
    (hfail :
      (buildSingleProofSetReport v client H (bigNewInt (int64OfUint64 k))).1.2 = some e) :
    (BuildProofSetReports addr client H).map Prod.fst =
        some ([], some (.errorString
          ("error building report for proof set " ++ toString k ++ ": " ++ e.Error))) := by
  unfold BuildProofSetReports
  simp only [hv, hn]
  rw [buildLoop_first_failure v client H N k hN hk e hfail N 0 [] _ (by omega) (by omega)
    (fun j _ hj => hprev j hj)]
  rfl

/-- C5: if the count is `N`, identifiers below `k < N` build, and in the construction for
`k` step `s` is the first to fail, with error `e`, then `BuildProofSetReports` returns
no reports (the reports built for identifiers below `k` are dropped) and an error
whose message is "error building report for proof set k: ", then
"failed to query PDP Service: " for the two Proving Service steps, then the context
text of the failing step `s`, then the message of `e`; the error
`buildSingleProofSetReport` returned for `k` is `s.error e`, next to the zero report. -/
theorem BuildProofSetReports_first_failure (addr : Address) (client : Client) (H : Int)
    (v : PDPVerifier) (N k : Nat) (s : Step) (e : GoError)
    (hv : client.NewPDPVerifier addr = .ok v) (hn : v.GetNextProofSetId = .ok N)
    (hN : N < 2 ^ 64) (hk : k < N)
    (hprev : ∀ j, j < k →
      (buildSingleProofSetReport v client H (bigNewInt (int64OfUint64 j))).1.2 = none)
    (hfail : FirstFailure v client (bigNewInt (int64OfUint64 k)) e s) :
    (BuildProofSetReports addr client H).map Prod.fst =
        some ([], some (.errorString
          ("error building report for proof set " ++ toString k ++ ": "
            ++ (s.outer ++ s.context ++ e.Error))))
    ∧ (buildSingleProofSetReport v client H (bigNewInt (int64OfUint64 k))).1
        = (ProofSetReport.zero, some (s.error e))
    ∧ (s.error e).Error = s.outer ++ s.context ++ e.Error := by
  have hb := buildSingle_first_failure_eq v client H (bigNewInt (int64OfUint64 k)) s e hfail
  have herr : (buildSingleProofSetReport v client H (bigNewInt (int64OfUint64 k))).1.2
      = some (s.error e) := by rw [hb]
  refine ⟨?_, hb, Step.error_message s e⟩
  rw [BuildProofSetReports_failure addr client H v N k (s.error e) hv hn hN hk hprev herr,
    Step.error_message s e]

/-- Witness for C5: three proof sets, the deadline read of identifier `1` reverts. -/
theorem BuildProofSetReports_first_failure_witness :
    (BuildProofSetReports 0 deadlineFailsAtOneClient 1000).map Prod.fst =
      some ([], some (.errorString
        "error building report for proof set 1: failed to query PDP Service: failed to get proving deadline: execution reverted")) :=
  (BuildProofSetReports_first_failure 0 deadlineFailsAtOneClient 1000 (sampleVerifier 3) 3 1
    .provingDeadline (.errorString "execution reverted")
    rfl rfl (by norm_num) (by norm_num)
    (fun j hj => by
      obtain rfl : j = 0 := by omega
      rfl)
    ⟨77, _, ⟨⟨_, rfl⟩, rfl, ⟨_, rfl⟩, ⟨_, rfl⟩, ⟨_, rfl⟩⟩, rfl, rfl⟩).1

/-- C6: if the count query fails with `e`, `BuildProofSetReports` returns no reports and
the error "failed to get next proof set ID: " followed by the message of `e`, which
wraps `e`; the only calls issued are the binding construction and the count query, so
no per-identifier read is made. -/
theorem BuildProofSetReports_count_fails (addr : Address) (client : Client) (H : Int)
    (v : PDPVerifier) (e : GoError)
    (hv : client.NewPDPVerifier addr = .ok v) (hn : v.GetNextProofSetId = .error e) :
    ∃ err, BuildProofSetReports addr client H =
        some (([], some err), [.NewPDPVerifier addr, .GetNextProofSetId])
      ∧ err.Error = "failed to get next proof set ID: " ++ e.Error
      ∧ err.Unwrap = some e := by
  refine ⟨errorfW "failed to get next proof set ID: " e, ?_, rfl, rfl⟩
  unfold BuildProofSetReports
  simp only [hv, hn]

/-- Witness for C6: the count query answers "connection refused". -/
theorem BuildProofSetReports_count_fails_witness :
    ∃ err, BuildProofSetReports 5 countFailingClient 1000 =
        some (([], some err), [.NewPDPVerifier 5, .GetNextProofSetId])
      ∧ err.Error = "failed to get next proof set ID: " ++ "connection refused"
      ∧ err.Unwrap = some (.errorString "connection refused") :=
  BuildProofSetReports_count_fails 5 countFailingClient 1000
    { sampleVerifier 0 with GetNextProofSetId := .error (.errorString "connection refused") }
    (.errorString "connection refused") rfl rfl

/-! ## Theorems: report builder -/

/-- C8: if all reads succeed, `buildSingleProofSetReport` returns no error and the report
made of the identifier, the values the Registry answered for it, the deadline and the
proven flag answered by the Proving Service instance at the listener address, and the
status `assessProofSetStatus` gives for the chain height and those values; the reads
issued are the five Registry reads for the identifier, then the two Proving Service
reads sent to the listener address. -/
theorem buildSingleProofSetReport_ok (v : PDPVerifier) (c : Client) (H id : Int)
    (owner1 owner2 listener : Address) (isLive : Bool) (nextChallenge lastProven : Int)
    (svc : PDPService) (deadline : Int) (proven : Bool)
    (h1 : v.GetProofSetOwner id = .ok (owner1, owner2))
    (h2 : v.GetProofSetListener id = .ok listener)
    (h3 : v.ProofSetLive id = .ok isLive)
    (h4 : v.GetNextChallengeEpoch id = .ok nextChallenge)
    (h5 : v.GetProofSetLastProvenEpoch id = .ok lastProven)
    (h6 : c.NewPDPService listener = .ok svc)
    (h7 : svc.ProvingDeadlines id = .ok deadline)
    (h8 : svc.ProvenThisPeriod id = .ok proven) :
    buildSingleProofSetReport v c H id =
      (({ ID := some id, Owner1 := owner1, Owner2 := owner2, Listener := listener,
          IsLive := isLive, NextChallengeEpoch := some nextChallenge,
          LastProvenEpoch := some lastProven, ProvingDeadline := some deadline,
          ProvenThisPeriod := proven,
          Status := assessProofSetStatus H isLive deadline proven }, none),
        [.GetProofSetOwner id, .GetProofSetListener id, .ProofSetLive id,
          .GetNextChallengeEpoch id, .GetProofSetLastProvenEpoch id,
          .NewPDPService listener, .ProvingDeadlines listener id,
          .ProvenThisPeriod listener id]) := by
  have hq : queryPDPService listener c id = ((some deadline, proven, none),
      [.NewPDPService listener, .ProvingDeadlines listener id,
        .ProvenThisPeriod listener id]) := by
    simp only [queryPDPService, h6, h7, h8]
  simp only [buildSingleProofSetReport, h1, h2, h3, h4, h5, hq]
  rfl

/-- Witness for C8: the sample collaborators, identifier `4`, chain height `999`. -/
theorem buildSingleProofSetReport_ok_witness :
    buildSingleProofSetReport (sampleVerifier 9) (sampleClient 9) 999 4 =
      (({ ID := some 4, Owner1 := 11, Owner2 := 12, Listener := 77,
          IsLive := true, NextChallengeEpoch := some 900,
          LastProvenEpoch := some 800, ProvingDeadline := some 1000,
          ProvenThisPeriod := false,
          Status := "PENDING (Awaiting Proof)" }, none),
        [.GetProofSetOwner 4, .GetProofSetListener 4, .ProofSetLive 4,
          .GetNextChallengeEpoch 4, .GetProofSetLastProvenEpoch 4,
          .NewPDPService 77, .ProvingDeadlines 77 4, .ProvenThisPeriod 77 4]) :=
  buildSingleProofSetReport_ok (sampleVerifier 9) (sampleClient 9) 999 4 11 12 77 true 900 800
    sampleService 1000 false rfl rfl rfl rfl rfl rfl rfl rfl

/-- C7: if step `s` is the first to fail, with error `e`, `buildSingleProofSetReport`
returns the zero report and an error whose message ends with the context text of `s`
followed by the message of `e`, and which wraps `e` (directly, or through the error of
`queryPDPService` for the two Proving Service steps); and whenever the function returns
an error at all, the report next to it is the zero report. -/
theorem buildSingleProofSetReport_first_failure (v : PDPVerifier) (c : Client) (H id : Int)
    (s : Step) (e : GoError) (hfail : FirstFailure v c id e s) :
    (buildSingleProofSetReport v c H id).1 = (ProofSetReport.zero, some (s.error e))
    ∧ (∃ pre : String, (s.error e).Error = pre ++ s.context ++ e.Error)
    ∧ ((s.error e).Unwrap = some e ∨ (s.error e).Unwrap.bind GoError.Unwrap = some e)
    ∧ (∀ (v2 : PDPVerifier) (c2 : Client) (H2 id2 : Int),
        (buildSingleProofSetReport v2 c2 H2 id2).1.2 ≠ none →
          (buildSingleProofSetReport v2 c2 H2 id2).1.1 = ProofSetReport.zero) := by
  refine ⟨buildSingle_first_failure_eq v c H id s e hfail, ?_, ?_, ?_⟩
  · cases s
    case provingDeadline =>
      exact ⟨"failed to query PDP Service: ", (String.append_assoc _ _ _).symm⟩
    case provenThisPeriod =>
      exact ⟨"failed to query PDP Service: ", (String.append_assoc _ _ _).symm⟩
    all_goals exact ⟨"", by simp [Step.error, errorfW, GoError.Error]⟩
  · cases s <;> simp [Step.error, errorfW, GoError.Unwrap]
  · intro v2 c2 H2 id2 hne
    rcases herr : (buildSingleProofSetReport v2 c2 H2 id2).1.2 with _ | e2
    · exact absurd herr hne
    · exact (buildSingle_err_shape v2 c2 H2 id2 e2 herr).1

/-- Witness for C7: every Registry read succeeds and the deadline read reverts. -/
theorem buildSingleProofSetReport_first_failure_witness :
    (buildSingleProofSetReport (sampleVerifier 1) deadlineFailingClient 1000 0).1 =
      (ProofSetReport.zero, some (.wrapError
        "failed to query PDP Service: failed to get proving deadline: execution reverted"
        (.wrapError "failed to get proving deadline: execution reverted"
          (.errorString "execution reverted")))) :=
  (buildSingleProofSetReport_first_failure (sampleVerifier 1) deadlineFailingClient 1000 0
    .provingDeadline (.errorString "execution reverted")
    ⟨77, _, ⟨⟨_, rfl⟩, rfl, ⟨_, rfl⟩, ⟨_, rfl⟩, ⟨_, rfl⟩⟩, rfl, rfl⟩).1

/-- The first read `buildSingleProofSetReport` issues is the owner query for the
identifier it was given. -/
theorem buildSingle_first_call (v : PDPVerifier) (c : Client) (H id : Int) :
    (buildSingleProofSetReport v c H id).2.head? = some (.GetProofSetOwner id) := by
  unfold buildSingleProofSetReport
  repeat (first | rfl | split)

/-! ## Theorems: whole runs -/

/-- C9: in a run of `BuildProofSetReports` with chain height `H` that returns no error,
every returned report has a non-nil deadline and its status is
`assessProofSetStatus` of `H` and the report's own liveness, deadline and proven flag. -/
theorem BuildProofSetReports_status_consistent (addr : Address) (client : Client) (H : Int)
    (reports : List ProofSetReport) (tr : List Call)
    (hrun : BuildProofSetReports addr client H = some ((reports, none), tr))
    (r : ProofSetReport) (hr : r ∈ reports) :
    ∃ d, r.ProvingDeadline = some d
      ∧ r.Status = assessProofSetStatus H r.IsLive d r.ProvenThisPeriod := by
  unfold BuildProofSetReports at hrun
  split at hrun
  · simp at hrun
  · split at hrun
    · simp at hrun
    · rcases buildLoop_mem _ _ _ _ _ _ _ _ _ _ hrun r hr with hmem | ⟨id, hok, hrid⟩
      · simp at hmem
      · obtain ⟨_, d, hd, hs⟩ := buildSingle_ok_fields _ client H id hok
        rw [← hrid] at hd hs
        exact ⟨d, hd, hs⟩

/-- Witness for C9: two proof sets at chain height `1000`, the report of identifier `1`. -/
theorem BuildProofSetReports_status_consistent_witness :
    ∃ d, (some 1000 : Option Int) = some d
      ∧ "BAD (Overdue / Missed Proof)" = assessProofSetStatus 1000 true d false :=
  BuildProofSetReports_status_consistent 5 (sampleClient 2) 1000 _ _ rfl
    { ID := some 1, Owner1 := 11, Owner2 := 12, Listener := 77, IsLive := true,
      NextChallengeEpoch := some 900, LastProvenEpoch := some 800,
      ProvingDeadline := some 1000, ProvenThisPeriod := false,
      Status := "BAD (Overdue / Missed Proof)" }
    (by decide)

/-- C10: the identifier the loop builds for index `i < 2^64` is `big.NewInt(int64(i))`:
it is `i` when `i < 2^63` and the negative `i - 2^64` when `2^63 ≤ i`, so it is
non-negative and equal to `i` exactly when `i < 2^63`; that value is what an iteration
passes to `buildSingleProofSetReport`, what the first Registry read is sent for, and
what a successful report stores as its `ID`. -/
theorem loop_identifier_int64 (i : Nat) (hi : i < 2 ^ 64) :
    (i < 2 ^ 63 → bigNewInt (int64OfUint64 i) = (i : Int))
    ∧ (2 ^ 63 ≤ i → bigNewInt (int64OfUint64 i) = (i : Int) - 2 ^ 64
        ∧ bigNewInt (int64OfUint64 i) < 0)
    ∧ ((0 ≤ bigNewInt (int64OfUint64 i) ∧ bigNewInt (int64OfUint64 i) = (i : Int))
        ↔ i < 2 ^ 63)
    ∧ (∀ (v : PDPVerifier) (c : Client) (H : Int) (N fuel : Nat)
        (reports : List ProofSetReport) (tr : List Call), i < N →
        buildLoop v c H N (fuel + 1) i reports tr =
          match buildSingleProofSetReport v c H
              (if i < 2 ^ 63 then (i : Int) else (i : Int) - 2 ^ 64) with
          | ((_, some err), calls) =>
            some (([], some (errorfBuildingReport i err)), tr ++ calls)
          | ((report, none), calls) =>
            buildLoop v c H N fuel ((i + 1) % 2 ^ 64) (reports ++ [report]) (tr ++ calls))
    ∧ (∀ (v : PDPVerifier) (c : Client) (H : Int),
        (buildSingleProofSetReport v c H (bigNewInt (int64OfUint64 i))).2.head?
          = some (.GetProofSetOwner (if i < 2 ^ 63 then (i : Int) else (i : Int) - 2 ^ 64))
        ∧ ((buildSingleProofSetReport v c H (bigNewInt (int64OfUint64 i))).1.2 = none →
          (buildSingleProofSetReport v c H (bigNewInt (int64OfUint64 i))).1.1.ID
            = some (if i < 2 ^ 63 then (i : Int) else (i : Int) - 2 ^ 64))) := by
  have hval : bigNewInt (int64OfUint64 i)
      = if i < 2 ^ 63 then (i : Int) else (i : Int) - 2 ^ 64 := by
    unfold bigNewInt
    by_cases h : i < 2 ^ 63
    · rw [int64OfUint64_of_lt i h, if_pos h]
    · rw [int64OfUint64_of_ge i (by omega) hi, if_neg h]
  have hcast : ((i : Nat) : Int) < 2 ^ 64 := by exact_mod_cast hi
  refine ⟨?_, ?_, ?_, ?_, ?_⟩
  · intro h
    rw [hval, if_pos h]
  · intro h
    rw [hval, if_neg (by omega)]
    exact ⟨rfl, by omega⟩
  · rw [hval]
    by_cases h : i < 2 ^ 63
    · rw [if_pos h]
      exact ⟨fun _ => h, fun _ => ⟨Int.ofNat_nonneg i, rfl⟩⟩
    · simp only [h, if_false, iff_false, not_and]
      intro _ heq
      have : (2 : Int) ^ 64 = 0 := by linarith
      norm_num at this
  · intro v c H N fuel reports tr hiN
    rw [buildLoop_step v c H N fuel i reports tr hiN, hval]
  · intro v c H
    rw [hval]
    exact ⟨buildSingle_first_call v c H _,
      fun hok => (buildSingle_ok_fields v c H _ hok).1⟩

/-- Witness for C10: at index `2^63` the identifier is `-2^63`. -/
theorem loop_identifier_int64_witness :
    bigNewInt (int64OfUint64 (2 ^ 63)) = ((2 ^ 63 : Nat) : Int) - 2 ^ 64
      ∧ bigNewInt (int64OfUint64 (2 ^ 63)) < 0 :=
  (loop_identifier_int64 (2 ^ 63) (by norm_num)).2.1 (le_refl _)

end PdpMon
